import Mathlib

/-!
Verification development for the Oscar-films crawler
(`app/crawler-api/main.py`, `app/crawler-oscar/selenium_crawler.py`,
`app/crawler-oscar/main.py`).

The Python code is shallowly embedded: each fetch's interaction with the
network / browser is a parameter (an outcome function), and the control
flow of the Python functions (retry loop, gather, partial/total-failure
policy, job state transitions) is translated definition by definition.
-/

/-- `OscarFilm` record model (`selenium_crawler.py` lines 26-36). -/
structure OscarFilm where
  title : String
  year : Int
  nominations : Int
  awards : Int
  best_picture : Bool
deriving Repr, DecidableEq

/-- The exceptions caught by the retry loop of `fetch_year`
(`except (httpx.RequestError, httpx.HTTPStatusError)`, main.py line 88). -/
inductive TransientExc where
  | requestError (msg : String)
  | httpStatusError (status : Nat)
deriving Repr, DecidableEq

/-- Errors a single `fetch_year` call can end with: a transient exception
escaping the retry budget, or a parse/validation error
(`response.json()` / `OscarFilm.model_validate`, main.py lines 85-86),
which the `except` clause at line 88 does not catch. -/
inductive FetchError where
  | transient (e : TransientExc)
  | parseError (e : String)
deriving Repr, DecidableEq

/-- What one attempt of `client.get` + response handling can observe:
either `httpx.RequestError` is raised by the request itself, or a
response arrives with a status code and a body whose JSON-decode +
model-validation result is `parse`. -/
inductive AttemptOutcome where
  | requestError (msg : String)
  | response (status : Nat) (parse : Except String (List OscarFilm))
deriving Repr

/-- `httpx.Response.is_success`: status in the 2xx range.
`raise_for_status` (main.py line 84) raises `httpx.HTTPStatusError`
for every status outside this range. -/
def isSuccessStatus (s : Nat) : Bool :=
  200 ≤ s && s < 300

/-- One attempt of the body of the retry loop of `fetch_year`
(main.py lines 79-87): the request either raises `httpx.RequestError`,
or returns a response; `raise_for_status` turns any non-2xx status into
`httpx.HTTPStatusError`; only then is the body parsed and validated. -/
def runAttempt (o : AttemptOutcome) : Except FetchError (List OscarFilm) :=
  match o with
  | AttemptOutcome.requestError msg =>
      Except.error (FetchError.transient (TransientExc.requestError msg))
  | AttemptOutcome.response status parse =>
      if isSuccessStatus status then
        match parse with
        | Except.ok films => Except.ok films
        | Except.error e => Except.error (FetchError.parseError e)
      else
        Except.error (FetchError.transient (TransientExc.httpStatusError status))

/-- Observable trace of one `fetch_year` call: how many attempts were
issued, the `asyncio.sleep` durations in chronological order, and the
final result. -/
structure FetchTrace where
  attemptsMade : Nat
  sleeps : List ℚ
  result : Except FetchError (List OscarFilm)
deriving Repr

/-- The retry loop `for attempt in range(1, 4)` of `fetch_year`
(main.py lines 77-94), run over the remaining attempt numbers.
A transient exception is retried after `asyncio.sleep(0.5 * attempt)`
when `attempt < 3`, and re-raised otherwise; any other exception
(parse/validation) propagates out of the loop at once. -/
def fetchAttempts (outcome : Nat → AttemptOutcome) : List Nat → FetchTrace
  | [] =>
      -- `raise last_exc` at main.py line 94; unreachable for the real call.
      { attemptsMade := 0, sleeps := [],
        result := Except.error (FetchError.transient (TransientExc.requestError "unreachable")) }
  | a :: rest =>
      match runAttempt (outcome a) with
      | Except.ok films =>
          { attemptsMade := 1, sleeps := [], result := Except.ok films }
      | Except.error (FetchError.parseError e) =>
          { attemptsMade := 1, sleeps := [], result := Except.error (FetchError.parseError e) }
      | Except.error (FetchError.transient t) =>
          if a < 3 then
            let r := fetchAttempts outcome rest
            { attemptsMade := r.attemptsMade + 1,
              sleeps := ((a : ℚ) / 2) :: r.sleeps,
              result := r.result }
          else
            { attemptsMade := 1, sleeps := [],
              result := Except.error (FetchError.transient t) }

/-- `fetch_year` (main.py lines 69-94), abstracted over what each of the
(at most three) attempts observes on the network. -/
def fetch_year (outcome : Nat → AttemptOutcome) : FetchTrace :=
  fetchAttempts outcome [1, 2, 3]

example :
    fetch_year (fun _ => AttemptOutcome.response 200 (Except.ok [])) =
      { attemptsMade := 1, sleeps := [], result := Except.ok [] } := rfl

example :
    (fetch_year (fun _ => AttemptOutcome.requestError "t")).attemptsMade = 3 := rfl

/-- `DEFAULT_YEARS = list(range(2010, 2016))` (main.py line 21). -/
def DEFAULT_YEARS : List Int := [2010, 2011, 2012, 2013, 2014, 2015]

/-- `years_to_fetch = years or DEFAULT_YEARS` (main.py line 101):
Python truthiness makes both `None` and the empty list fall back to
`DEFAULT_YEARS`. -/
def yearsToFetch (years : Option (List Int)) : List Int :=
  match years with
  | some ys => if ys.isEmpty then DEFAULT_YEARS else ys
  | none => DEFAULT_YEARS

/-- `asyncio.gather(..., return_exceptions=True)` over the per-year
fetches (main.py lines 103-106): results come back paired with their
year in the input order (gather preserves argument order regardless of
completion order). Each year's overall fetch outcome is abstracted as
`Except String (List OscarFilm)`, the `String` standing for
`repr(exception)`. -/
def gatherReturnExceptions (outcome : Int → Except String (List OscarFilm))
    (ys : List Int) : List (Int × Except String (List OscarFilm)) :=
  ys.map (fun y => (y, outcome y))

/-- The accumulation loop of `crawl_oscar_films` (main.py lines 108-115):
successful years' films are concatenated in input order, failed years
contribute a `"year={year}: {repr(exc)}"` description, also in input
order. -/
def collectFilmsErrors :
    List (Int × Except String (List OscarFilm)) → List OscarFilm × List String
  | [] => ([], [])
  | (y, r) :: rest =>
      let p := collectFilmsErrors rest
      match r with
      | Except.ok fs => (fs ++ p.1, p.2)
      | Except.error e => (p.1, ("year=" ++ toString y ++ ": " ++ e) :: p.2)

/-- `crawl_oscar_films` (main.py lines 97-132): AJAX-mode coordinator.
Raises `RuntimeError` (modelled as `Except.error`) exactly when
`errors and not films` (line 117); otherwise returns the collected
films. -/
def crawl_oscar_films (outcome : Int → Except String (List OscarFilm))
    (years : Option (List Int)) : Except String (List OscarFilm) :=
  let ys := yearsToFetch years
  let p := collectFilmsErrors (gatherReturnExceptions outcome ys)
  if !p.2.isEmpty && p.1.isEmpty then
    Except.error ("AJAX crawl failed for all years: " ++ String.intercalate "; " p.2)
  else
    Except.ok p.1

/-- The success-side projection of a year outcome, used to state what a
correct coordinator returns: the records of succeeding partitions only. -/
def okFilms (r : Except String (List OscarFilm)) : Option (List OscarFilm) :=
  match r with
  | Except.ok fs => some fs
  | Except.error _ => none

/-- Environment of the Selenium crawler: the blocking per-year fetch
`_fetch_year_selenium` (selenium_crawler.py lines 131-142) and the
one-shot discovery `_discover_years_and_first_page` (lines 87-128),
which yields `(years_found, active_year, first_films)` or raises. -/
structure SeleniumEnv where
  fetchYear : Int → Except String (List OscarFilm)
  discover : Except String (List Int × Int × List OscarFilm)

/-- `asyncio.gather` WITHOUT `return_exceptions` (selenium_crawler.py
lines 161 and 180): if every task succeeds it yields the list of
results in input order; if any task raises, the gather call itself
raises one failing task's exception (which one depends on completion
order; this model deterministically picks the first failing year in
input order — every theorem below depends only on whether some year
fails, not on which exception is surfaced). -/
def gatherStrict (fetch : Int → Except String (List OscarFilm)) :
    List Int → Except String (List (List OscarFilm))
  | [] => Except.ok []
  | y :: rest =>
      match fetch y with
      | Except.error e => Except.error e
      | Except.ok fs =>
          match gatherStrict fetch rest with
          | Except.error e => Except.error e
          | Except.ok others => Except.ok (fs :: others)

/-- Observable trace of one `crawl_oscar_films_selenium` call: how many
times discovery ran, which years were fetched via
`_fetch_year_selenium`, and the final result. -/
structure SeleniumTrace where
  discoverCalls : Nat
  fetchedYears : List Int
  result : Except String (List OscarFilm)

/-- `crawl_oscar_films_selenium` (selenium_crawler.py lines 145-184).
With explicit `years` it gathers one fetch per year (no discovery) and
flattens; with `years = None` it runs discovery once, filters out the
active year, and prefixes the discovery records to the gathered rest. -/
def crawl_oscar_films_selenium (env : SeleniumEnv) (years : Option (List Int)) :
    SeleniumTrace :=
  match years with
  | some ys =>
      { discoverCalls := 0, fetchedYears := ys,
        result :=
          match gatherStrict env.fetchYear ys with
          | Except.error e => Except.error e
          | Except.ok results => Except.ok results.flatten }
  | none =>
      match env.discover with
      | Except.error e =>
          { discoverCalls := 1, fetchedYears := [], result := Except.error e }
      | Except.ok (years_found, active_year, first_films) =>
          let remaining_years := years_found.filter (fun y => y != active_year)
          if remaining_years.isEmpty then
            { discoverCalls := 1, fetchedYears := [], result := Except.ok first_films }
          else
            { discoverCalls := 1, fetchedYears := remaining_years,
              result :=
                match gatherStrict env.fetchYear remaining_years with
                | Except.error e => Except.error e
                | Except.ok rs => Except.ok (first_films ++ rs.flatten) }

/-- `JobStatusEnum` (main.py lines 24-28). -/
inductive JobStatusEnum where
  | pending
  | running
  | completed
  | failed
deriving Repr, DecidableEq

/-- `CrawlJobResult` (main.py lines 50-58); timestamps are abstract
ticks. -/
structure CrawlJobResult where
  job_id : String
  status : JobStatusEnum
  created_at : Nat
  updated_at : Nat
  total_films : Nat := 0
  data_file : Option String := none
  error : Option String := none
  films : Option (List OscarFilm) := none
deriving Repr, DecidableEq

/-- An exception as seen by `_run_crawl_job`'s handler: `str(exc)` and
`repr(exc)` are distinct observations (main.py line 178 notes `str()`
is often empty for driver errors). -/
structure PyExc where
  message : String
  reprStr : String
deriving Repr, DecidableEq

/-- The job created by `trigger_oscar_crawl` (main.py lines 204-209). -/
def mkJob (id : String) (now : Nat) : CrawlJobResult :=
  { job_id := id, status := JobStatusEnum.pending, created_at := now, updated_at := now }

/-- The `running` transition (main.py line 152). -/
def runningUpdate (job : CrawlJobResult) (now : Nat) : CrawlJobResult :=
  { job with status := JobStatusEnum.running, updated_at := now }

/-- The `completed` transition (main.py lines 168-176): films attached,
`total_films = len(films)`, data file recorded. -/
def completedUpdate (job : CrawlJobResult) (now : Nat) (films : List OscarFilm)
    (file : String) : CrawlJobResult :=
  { job with
    status := JobStatusEnum.completed
    updated_at := now
    total_films := films.length
    data_file := some file
    films := some films }

/-- The `failed` transition (main.py lines 180-186): `error := repr(exc)`. -/
def failedUpdate (job : CrawlJobResult) (now : Nat) (exc : PyExc) : CrawlJobResult :=
  { job with
    status := JobStatusEnum.failed
    updated_at := now
    error := some exc.reprStr }

/-- `_run_crawl_job` (main.py lines 150-186) as the sequence of states it
stores for the job, in order: first the `running` copy, then the
terminal copy (both copies are made from the snapshot read at entry).
`crawl` is the outcome of the selected crawl coroutine. -/
def _run_crawl_job (job : CrawlJobResult) (crawl : Except PyExc (List OscarFilm))
    (t1 t2 : Nat) (file : String) : List CrawlJobResult :=
  let running := runningUpdate job t1
  match crawl with
  | Except.ok films => [running, completedUpdate job t2 films file]
  | Except.error exc => [running, failedUpdate job t2 exc]

/-- `trigger_oscar_crawl` (main.py lines 200-214): creates the pending
job, schedules `_run_crawl_job` as a background task, and returns the
job at once. The submission-time return value is the first component;
the deferred background execution is the second. -/
def trigger_oscar_crawl (id : String) (now : Nat)
    (crawl : Except PyExc (List OscarFilm)) :
    CrawlJobResult × (Nat → Nat → String → List CrawlJobResult) :=
  (mkJob id now, fun t1 t2 file => _run_crawl_job (mkJob id now) crawl t1 t2 file)

/-- The job-record invariant claimed by the spec: records present iff
completed, error present iff failed, `total_films` consistent. -/
def jobInvariant (j : CrawlJobResult) : Prop :=
  (j.films.isSome = true ↔ j.status = JobStatusEnum.completed)
  ∧ (j.error.isSome = true ↔ j.status = JobStatusEnum.failed)
  ∧ (j.status = JobStatusEnum.completed → j.total_films = (j.films.getD []).length)
  ∧ ((j.status = JobStatusEnum.pending ∨ j.status = JobStatusEnum.running) →
      j.total_films = 0)

instance (j : CrawlJobResult) : Decidable (jobInvariant j) := by
  unfold jobInvariant; infer_instance

/-- A concrete record, as in the spec's table-scrape scenario. -/
def filmA : OscarFilm :=
  { title := "Inception", year := 2010, nominations := 8, awards := 4, best_picture := true }

/-- A second concrete record. -/
def filmB : OscarFilm :=
  { title := "Argo", year := 2012, nominations := 7, awards := 3, best_picture := true }

/-- Per-year outcomes for the C1 counterexample: 2010 succeeds with an
empty record list, 2011 fails. -/
def c1ex : Int → Except String (List OscarFilm) := fun y =>
  if y = 2010 then Except.ok [] else Except.error "ConnectError(boom)"

/-- Per-year outcomes with a nonempty success: 2010 succeeds with one
record, 2011 fails. -/
def c1wex : Int → Except String (List OscarFilm) := fun y =>
  if y = 2010 then Except.ok [filmA] else Except.error "ConnectError(boom)"

/-- Per-year outcomes where every year fails. -/
def c2ex : Int → Except String (List OscarFilm) := fun y =>
  Except.error ("ReadTimeout(y" ++ toString y ++ ")")

/-- The per-year failure descriptions matching `c2ex`. -/
def c2err : Int → String := fun y => "ReadTimeout(y" ++ toString y ++ ")"

/-- Selenium environment where year 2010 fails and every other year
succeeds. -/
def c3env : SeleniumEnv :=
  { fetchYear := fun y =>
      if y = 2010 then Except.error "WebDriverException()" else Except.ok [filmB]
    discover := Except.error "unused" }

/-- Selenium environment where every year succeeds. -/
def c3wenv : SeleniumEnv :=
  { fetchYear := fun y => if y = 2010 then Except.ok [filmA] else Except.ok [filmB]
    discover := Except.error "unused" }

/-- Selenium environment whose discovery finds years 2010 and 2012 with
2010 active (already scraped as `filmA`), and whose per-year fetch
returns `filmB`. -/
def c7env : SeleniumEnv :=
  { fetchYear := fun _ => Except.ok [filmB]
    discover := Except.ok ([2010, 2012], 2010, [filmA]) }

/-- Attempt outcomes: a connection error on attempt 1, then a 2xx
response whose body fails validation. -/
def c8ex : Nat → AttemptOutcome := fun j =>
  if j = 1 then AttemptOutcome.requestError "ConnectError()"
  else AttemptOutcome.response 200 (Except.error "ValidationError(title)")

/-- Attempt outcomes: a 404 response on attempt 1, then a 2xx response
parsing to one record. -/
def c10ex : Nat → AttemptOutcome := fun j =>
  if j = 1 then AttemptOutcome.response 404 (Except.ok [])
  else AttemptOutcome.response 200 (Except.ok [filmA])

/-- C4: for every partition, the Direct-Fetch strategy issues at most 3
attempts; it sleeps only between attempts 1→2 and 2→3, with sleep
durations 0.5 and 1.0 time units respectively, and the failure of
attempt 3 propagates immediately without a further sleep (the sleeps
performed are exactly the first `attemptsMade - 1` entries of
`[0.5, 1.0]`). -/
theorem fetch_year_retry_schedule (o : Nat → AttemptOutcome) :
    (fetch_year o).attemptsMade ≤ 3 ∧
    (fetch_year o).sleeps = [(1 : ℚ)/2, 1].take ((fetch_year o).attemptsMade - 1) := by
  unfold fetch_year
  cases h1 : runAttempt (o 1) with
  | ok fs1 => simp [fetchAttempts, h1]
  | error e1 =>
    cases e1 with
    | parseError p1 => simp [fetchAttempts, h1]
    | transient t1 =>
      cases h2 : runAttempt (o 2) with
      | ok fs2 => simp [fetchAttempts, h1, h2]
      | error e2 =>
        cases e2 with
        | parseError p2 => simp [fetchAttempts, h1, h2]
        | transient t2 =>
          cases h3 : runAttempt (o 3) with
          | ok fs3 => simp [fetchAttempts, h1, h2, h3]
          | error e3 =>
            cases e3 with
            | parseError p3 => simp [fetchAttempts, h1, h2, h3]
            | transient t3 => simp [fetchAttempts, h1, h2, h3]

/-- C8: a parsing failure of a successful (2xx) response is never
retried: if the attempt numbered `k` is the first non-transient one and
it returns a 2xx response whose body fails parsing/validation, the call
ends on attempt `k` with a `parseError` — an error kind distinct from
the retried transient kind. -/
theorem fetch_year_parse_error_not_retried (o : Nat → AttemptOutcome)
    (k status : Nat) (e : String) (hk1 : 1 ≤ k) (hk3 : k ≤ 3)
    (hprev : ∀ j, 1 ≤ j → j < k →
      ∃ t, runAttempt (o j) = Except.error (FetchError.transient t))
    (hst : isSuccessStatus status = true)
    (hko : o k = AttemptOutcome.response status (Except.error e)) :
    (fetch_year o).result = Except.error (FetchError.parseError e) ∧
    (fetch_year o).attemptsMade = k := by
  have hrk : runAttempt (o k) = Except.error (FetchError.parseError e) := by
    rw [hko]; simp [runAttempt, hst]
  interval_cases k
  · simp [fetch_year, fetchAttempts, hrk]
  · obtain ⟨t1, h1⟩ := hprev 1 (by norm_num) (by norm_num)
    simp [fetch_year, fetchAttempts, h1, hrk]
  · obtain ⟨t1, h1⟩ := hprev 1 (by norm_num) (by norm_num)
    obtain ⟨t2, h2⟩ := hprev 2 (by norm_num) (by norm_num)
    simp [fetch_year, fetchAttempts, h1, h2, hrk]

/-- Witness for C8: connection error on attempt 1, then a 2xx response
that fails validation on attempt 2: the call fails at once with the
parse error, after exactly 2 attempts. -/
theorem fetch_year_parse_error_not_retried_witness :
    (fetch_year c8ex).result = Except.error (FetchError.parseError "ValidationError(title)") ∧
    (fetch_year c8ex).attemptsMade = 2 :=
  fetch_year_parse_error_not_retried c8ex 2 200 "ValidationError(title)"
    (by norm_num) (by norm_num)
    (fun j hj1 hj2 => by
      have hj : j = 1 := by omega
      subst hj
      exact ⟨TransientExc.requestError "ConnectError()", rfl⟩)
    rfl rfl

/-- C10: every non-2xx response status — 4xx client errors included — is
classified as a retryable transient failure (`httpStatusError`), and it
consumes a retry attempt rather than escalating: a non-2xx status on
attempt 1 followed by a success on attempt 2 yields a successful call
of 2 attempts with one 0.5 sleep. -/
theorem fetch_year_non2xx_is_retried (o : Nat → AttemptOutcome) (status : Nat)
    (p : Except String (List OscarFilm)) (films : List OscarFilm)
    (hbad : isSuccessStatus status = false)
    (h1 : o 1 = AttemptOutcome.response status p)
    (h2 : runAttempt (o 2) = Except.ok films) :
    runAttempt (AttemptOutcome.response status p) =
      Except.error (FetchError.transient (TransientExc.httpStatusError status)) ∧
    fetch_year o =
      { attemptsMade := 2, sleeps := [(1 : ℚ)/2], result := Except.ok films } := by
  have hr1 : runAttempt (o 1) =
      Except.error (FetchError.transient (TransientExc.httpStatusError status)) := by
    rw [h1]; simp [runAttempt, hbad]
  refine ⟨by simp [runAttempt, hbad], ?_⟩
  simp [fetch_year, fetchAttempts, hr1, h2]

/-- Witness for C10: a 404 on attempt 1 is retried and a 2xx success on
attempt 2 completes the call. -/
theorem fetch_year_non2xx_is_retried_witness :
    fetch_year c10ex =
      { attemptsMade := 2, sleeps := [(1 : ℚ)/2], result := Except.ok [filmA] } :=
  (fetch_year_non2xx_is_retried c10ex 404 (Except.ok []) [filmA] rfl rfl rfl).2

/-- The films accumulated by `crawl_oscar_films` are the concatenation,
in input (enumeration) order, of the succeeding years' record lists. -/
theorem collectFilms_eq_flatten (outcome : Int → Except String (List OscarFilm)) :
    ∀ ys : List Int,
      (collectFilmsErrors (gatherReturnExceptions outcome ys)).1 =
        (ys.filterMap (fun y => okFilms (outcome y))).flatten := by
  intro ys
  induction ys with
  | nil => rfl
  | cons y rest ih =>
      cases h : outcome y with
      | ok fs =>
          simp [gatherReturnExceptions, collectFilmsErrors, h, okFilms,
            List.filterMap_cons] at ih ⊢
          rw [ih]
      | error e =>
          simp [gatherReturnExceptions, collectFilmsErrors, h, okFilms,
            List.filterMap_cons] at ih ⊢
          exact ih

/-- When every year fails, the accumulation loop collects no films and
one `"year={y}: {repr}"` description per year, in input order. -/
theorem collectAllFail (outcome : Int → Except String (List OscarFilm))
    (err : Int → String) :
    ∀ ys : List Int, (∀ y ∈ ys, outcome y = Except.error (err y)) →
      collectFilmsErrors (gatherReturnExceptions outcome ys) =
        ([], ys.map (fun y => "year=" ++ toString y ++ ": " ++ err y)) := by
  intro ys
  induction ys with
  | nil => intro _; rfl
  | cons y rest ih =>
      intro hall
      have hy : outcome y = Except.error (err y) := hall y (List.mem_cons_self _ _)
      have hrest := ih (fun z hz => hall z (List.mem_cons_of_mem _ hz))
      simp [gatherReturnExceptions, collectFilmsErrors, hy] at hrest ⊢
      simp [hrest]

/-- Counterexample to C1 as stated: year 2010 succeeds (with an empty
record list) and year 2011 fails, yet the call raises the aggregated
"failed for all years" error instead of returning the succeeding
partition's records, because the code tests `not films` rather than
"no partition succeeded" (main.py line 117). -/
theorem crawl_partial_success_counterexample :
    c1ex 2010 = Except.ok [] ∧ c1ex 2011 = Except.error "ConnectError(boom)" ∧
    crawl_oscar_films c1ex (some [2010, 2011]) =
      Except.error "AJAX crawl failed for all years: year=2011: ConnectError(boom)" :=
  ⟨rfl, rfl, rfl⟩

/-- C1 amended: in direct mode, whenever at least one partition succeeds
with a NONEMPTY record list (not merely succeeds), the call raises
nothing and returns exactly the succeeding partitions' records
concatenated in partition-key enumeration (input) order. -/
theorem crawl_partial_success_returns_successes
    (outcome : Int → Except String (List OscarFilm)) (ys : List Int)
    (hsucc : ∃ y ∈ ys, ∃ fs, outcome y = Except.ok fs ∧ fs ≠ []) :
    crawl_oscar_films outcome (some ys) =
      Except.ok ((ys.filterMap (fun y => okFilms (outcome y))).flatten) := by
  obtain ⟨y, hy, fs, hok, hfs⟩ := hsucc
  have hysne : ys.isEmpty = false := by
    rw [List.isEmpty_eq_false]
    rintro rfl
    simp at hy
  have hfilms := collectFilms_eq_flatten outcome ys
  have hne : (collectFilmsErrors (gatherReturnExceptions outcome ys)).1.isEmpty = false := by
    rw [List.isEmpty_eq_false, hfilms]
    have hmem : fs ∈ ys.filterMap (fun y => okFilms (outcome y)) :=
      List.mem_filterMap.mpr ⟨y, hy, by simp [okFilms, hok]⟩
    intro hnil
    rw [List.flatten_eq_nil_iff] at hnil
    exact hfs (hnil fs hmem)
  have hys : yearsToFetch (some ys) = ys := by simp [yearsToFetch, hysne]
  have hcond : (!(collectFilmsErrors (gatherReturnExceptions outcome ys)).2.isEmpty
      && (collectFilmsErrors (gatherReturnExceptions outcome ys)).1.isEmpty) = false := by
    rw [hne, Bool.and_false]
  simp only [crawl_oscar_films, hys, hcond]
  simp [hfilms]

/-- Witness for C1 amended: 2010 succeeds with one record, 2011 fails;
the call returns 2010's records. -/
theorem crawl_partial_success_returns_successes_witness :
    crawl_oscar_films c1wex (some [2010, 2011]) =
      Except.ok (([2010, 2011].filterMap (fun y => okFilms (c1wex y))).flatten) :=
  crawl_partial_success_returns_successes c1wex [2010, 2011]
    ⟨2010, List.mem_cons_self _ _, [filmA], rfl, by simp⟩

/-- C2: when every year of a nonempty direct-mode `collect` call fails,
the call raises a single aggregated error whose description is the
join of one `"year={y}: {repr}"` entry per partition key, in input
order — it mentions every key together with its failure. -/
theorem crawl_all_fail_aggregates (outcome : Int → Except String (List OscarFilm))
    (err : Int → String) (ys : List Int) (hne : ys ≠ [])
    (hall : ∀ y ∈ ys, outcome y = Except.error (err y)) :
    crawl_oscar_films outcome (some ys) =
      Except.error ("AJAX crawl failed for all years: " ++
        String.intercalate "; "
          (ys.map (fun y => "year=" ++ toString y ++ ": " ++ err y))) := by
  have hysne : ys.isEmpty = false := List.isEmpty_eq_false.mpr hne
  have hsplit := collectAllFail outcome err ys hall
  have hmapne : (ys.map (fun y => "year=" ++ toString y ++ ": " ++ err y)).isEmpty = false := by
    rw [List.isEmpty_eq_false]
    simp [hne]
  have hys : yearsToFetch (some ys) = ys := by simp [yearsToFetch, hysne]
  have h1 : (collectFilmsErrors (gatherReturnExceptions outcome ys)).1 = [] := by
    rw [hsplit]
  have h2 : (collectFilmsErrors (gatherReturnExceptions outcome ys)).2 =
      ys.map (fun y => "year=" ++ toString y ++ ": " ++ err y) := by
    rw [hsplit]
  have hcond : (!(collectFilmsErrors (gatherReturnExceptions outcome ys)).2.isEmpty
      && (collectFilmsErrors (gatherReturnExceptions outcome ys)).1.isEmpty) = true := by
    simp [h1, h2, hmapne]
  simp only [crawl_oscar_films, hys, hcond]
  simp [h2]

/-- Witness for C2: both 2010 and 2011 fail; the aggregated error names
both years with their failures. -/
theorem crawl_all_fail_aggregates_witness :
    crawl_oscar_films c2ex (some [2010, 2011]) =
      Except.error ("AJAX crawl failed for all years: " ++
        String.intercalate "; "
          ([2010, 2011].map (fun y => "year=" ++ toString y ++ ": " ++ c2err y))) :=
  crawl_all_fail_aggregates c2ex c2err [2010, 2011] (by simp) (fun y _ => rfl)

/-- C9: an explicitly empty partition list in direct mode is treated the
same as an absent one — the default range 2010–2015 is fetched — while
in browser (Selenium) mode an explicitly empty list yields an empty
record list and no per-year fetch at all. -/
theorem empty_years_default_vs_selenium :
    (∀ outcome, crawl_oscar_films outcome (some []) = crawl_oscar_films outcome none)
    ∧ yearsToFetch (some []) = [2010, 2011, 2012, 2013, 2014, 2015]
    ∧ ∀ env, (crawl_oscar_films_selenium env (some [])).result = Except.ok []
        ∧ (crawl_oscar_films_selenium env (some [])).fetchedYears = [] :=
  ⟨fun _ => rfl, rfl, fun _ => ⟨rfl, rfl⟩⟩

/-- If a gather without `return_exceptions` fails, some year's fetch
failed. -/
theorem gatherStrict_error_implies (fetch : Int → Except String (List OscarFilm)) :
    ∀ (ys : List Int) (e : String), gatherStrict fetch ys = Except.error e →
      ∃ y ∈ ys, ∃ e2, fetch y = Except.error e2 := by
  intro ys
  induction ys with
  | nil => intro e h; simp [gatherStrict] at h
  | cons y rest ih =>
      intro e h
      cases hf : fetch y with
      | error e2 => exact ⟨y, List.mem_cons_self _ _, e2, hf⟩
      | ok fs =>
          rw [gatherStrict, hf] at h
          cases hg : gatherStrict fetch rest with
          | error e3 =>
              obtain ⟨z, hz, e4, hfz⟩ := ih e3 hg
              exact ⟨z, List.mem_cons_of_mem _ hz, e4, hfz⟩
          | ok os => rw [hg] at h; cases h

/-- If some year's fetch fails, a gather without `return_exceptions`
fails. -/
theorem gatherStrict_error_of (fetch : Int → Except String (List OscarFilm)) :
    ∀ ys : List Int, (∃ y ∈ ys, ∃ e, fetch y = Except.error e) →
      ∃ e2, gatherStrict fetch ys = Except.error e2 := by
  intro ys
  induction ys with
  | nil =>
      rintro ⟨y, hy, _⟩
      simp at hy
  | cons z rest ih =>
      rintro ⟨y, hy, e, hf⟩
      cases hfz : fetch z with
      | error e2 => exact ⟨e2, by rw [gatherStrict, hfz]⟩
      | ok fs =>
          rcases List.mem_cons.mp hy with rfl | hmem
          · rw [hfz] at hf; cases hf
          · obtain ⟨e3, hg⟩ := ih ⟨y, hmem, e, hf⟩
            exact ⟨e3, by rw [gatherStrict, hfz, hg]⟩

/-- When every year's fetch succeeds, the strict gather returns all
per-year record lists in input order. -/
theorem gatherStrict_eq_of_all_ok (fetch : Int → Except String (List OscarFilm)) :
    ∀ ys : List Int, (∀ y ∈ ys, ∃ fs, fetch y = Except.ok fs) →
      gatherStrict fetch ys =
        Except.ok (ys.filterMap (fun y => okFilms (fetch y))) := by
  intro ys
  induction ys with
  | nil => intro _; rfl
  | cons y rest ih =>
      intro hall
      obtain ⟨fs, hf⟩ := hall y (List.mem_cons_self _ _)
      have hrest := ih (fun z hz => hall z (List.mem_cons_of_mem _ hz))
      rw [gatherStrict, hf, hrest, List.filterMap_cons]
      simp [okFilms, hf]

/-- Conversely, when a strict gather succeeds, the per-year record lists
it returns are exactly the fetches' results, in input order. -/
theorem gatherStrict_ok_implies (fetch : Int → Except String (List OscarFilm)) :
    ∀ (ys : List Int) (rs : List (List OscarFilm)),
      gatherStrict fetch ys = Except.ok rs →
      rs = ys.filterMap (fun y => okFilms (fetch y)) := by
  intro ys
  induction ys with
  | nil =>
      intro rs h
      cases h
      rfl
  | cons y rest ih =>
      intro rs h
      cases hf : fetch y with
      | error e => rw [gatherStrict, hf] at h; cases h
      | ok fs =>
          rw [gatherStrict, hf] at h
          cases hg : gatherStrict fetch rest with
          | error e => rw [hg] at h; cases h
          | ok os =>
              rw [hg] at h
              cases h
              rw [List.filterMap_cons]
              simp [okFilms, hf]
              exact ih os hg

/-- Counterexample to C3 as stated: in browser mode with explicit keys
`[2010, 2011]`, year 2011 succeeds but year 2010's single failure makes
the whole call fail (the code gathers without `return_exceptions`,
selenium_crawler.py line 161), instead of returning the success set;
no aggregated all-partitions-failed error is involved. -/
theorem selenium_single_failure_counterexample :
    c3env.fetchYear 2011 = Except.ok [filmB] ∧
    (crawl_oscar_films_selenium c3env (some [2010, 2011])).result =
      Except.error "WebDriverException()" :=
  ⟨rfl, rfl⟩

/-- C3 amended: in browser mode over explicit partition keys the call
does NOT apply the aggregated-failure policy: it fails exactly when at
least one partition fails (propagating a failing partition's own
error), and returns the concatenation of every partition's records in
key order when all succeed. -/
theorem selenium_explicit_fails_iff_any_fails (env : SeleniumEnv) (ys : List Int) :
    ((∃ e, (crawl_oscar_films_selenium env (some ys)).result = Except.error e)
      ↔ ∃ y ∈ ys, ∃ e, env.fetchYear y = Except.error e)
    ∧ ((∀ y ∈ ys, ∃ fs, env.fetchYear y = Except.ok fs) →
        (crawl_oscar_films_selenium env (some ys)).result =
          Except.ok ((ys.filterMap (fun y => okFilms (env.fetchYear y))).flatten)) := by
  cases hg : gatherStrict env.fetchYear ys with
  | error e =>
      refine ⟨⟨fun _ => gatherStrict_error_implies env.fetchYear ys e hg, ?_⟩, ?_⟩
      · intro _
        exact ⟨e, by simp [crawl_oscar_films_selenium, hg]⟩
      · intro hall
        rw [gatherStrict_eq_of_all_ok env.fetchYear ys hall] at hg
        cases hg
  | ok rs =>
      refine ⟨⟨?_, ?_⟩, ?_⟩
      · rintro ⟨e, he⟩
        simp [crawl_oscar_films_selenium, hg] at he
      · rintro ⟨y, hy, e, hf⟩
        obtain ⟨e2, hg2⟩ := gatherStrict_error_of env.fetchYear ys ⟨y, hy, e, hf⟩
        rw [hg] at hg2
        cases hg2
      · intro hall
        have := gatherStrict_eq_of_all_ok env.fetchYear ys hall
        rw [hg] at this
        cases this
        simp [crawl_oscar_films_selenium, hg]

/-- Witness for C3 amended: both years succeed, so the call returns both
partitions' records in key order. -/
theorem selenium_explicit_fails_iff_any_fails_witness :
    (crawl_oscar_films_selenium c3wenv (some [2010, 2011])).result =
      Except.ok (([2010, 2011].filterMap (fun y => okFilms (c3wenv.fetchYear y))).flatten) :=
  (selenium_explicit_fails_iff_any_fails c3wenv [2010, 2011]).2
    (fun y _ => by by_cases h : y = 2010 <;> simp [c3wenv, h])

/-- C7: in browser mode with no explicit keys, discovery runs exactly
once, the fetched set is the discovered set minus the active partition
(never re-fetching it), every successful result is exactly the
discovery records followed by the remaining discovered partitions'
collected records in enumeration order, and when every remaining fetch
succeeds the call does return that combination. -/
theorem selenium_discovery_prefixes_active (env : SeleniumEnv)
    (years_found : List Int) (active_year : Int) (first_films : List OscarFilm)
    (hdisc : env.discover = Except.ok (years_found, active_year, first_films)) :
    (crawl_oscar_films_selenium env none).discoverCalls = 1
    ∧ (crawl_oscar_films_selenium env none).fetchedYears =
        years_found.filter (fun y => y != active_year)
    ∧ active_year ∉ (crawl_oscar_films_selenium env none).fetchedYears
    ∧ (∀ films, (crawl_oscar_films_selenium env none).result = Except.ok films →
        films = first_films ++
          ((years_found.filter (fun y => y != active_year)).filterMap
            (fun y => okFilms (env.fetchYear y))).flatten)
    ∧ ((∀ y ∈ years_found.filter (fun y => y != active_year),
          ∃ fs, env.fetchYear y = Except.ok fs) →
        (crawl_oscar_films_selenium env none).result =
          Except.ok (first_films ++
            ((years_found.filter (fun y => y != active_year)).filterMap
              (fun y => okFilms (env.fetchYear y))).flatten)) := by
  have hactive : active_year ∉ years_found.filter (fun y => y != active_year) := by
    intro hmem
    rcases List.mem_filter.mp hmem with ⟨_, habs⟩
    simp at habs
  by_cases hrem : (years_found.filter (fun y => y != active_year)).isEmpty
  · have hnil := List.isEmpty_iff.mp hrem
    have htr : crawl_oscar_films_selenium env none =
        { discoverCalls := 1, fetchedYears := [], result := Except.ok first_films } := by
      simp [crawl_oscar_films_selenium, hdisc, hrem]
    rw [htr]
    refine ⟨rfl, hnil.symm, by simp, ?_, ?_⟩
    · intro films hf
      cases hf
      rw [hnil]
      simp
    · intro _
      rw [hnil]
      simp
  · have hremf : (years_found.filter (fun y => y != active_year)).isEmpty = false :=
      Bool.eq_false_iff.mpr hrem
    have htr : crawl_oscar_films_selenium env none =
        { discoverCalls := 1
          fetchedYears := years_found.filter (fun y => y != active_year)
          result :=
            match gatherStrict env.fetchYear
                (years_found.filter (fun y => y != active_year)) with
            | Except.error e => Except.error e
            | Except.ok rs => Except.ok (first_films ++ rs.flatten) } := by
      simp [crawl_oscar_films_selenium, hdisc, hremf]
    rw [htr]
    refine ⟨rfl, rfl, hactive, ?_, ?_⟩
    · intro films hf
      cases hg : gatherStrict env.fetchYear
          (years_found.filter (fun y => y != active_year)) with
      | error e => rw [hg] at hf; cases hf
      | ok rs =>
          rw [hg] at hf
          cases hf
          rw [gatherStrict_ok_implies env.fetchYear
            (years_found.filter (fun y => y != active_year)) rs hg]
    · intro hall
      rw [gatherStrict_eq_of_all_ok env.fetchYear
        (years_found.filter (fun y => y != active_year)) hall]

/-- Witness for C7: discovery finds `[2010, 2012]` with 2010 active and
records `[filmA]`; only 2012 is fetched afterwards, and the call returns
the discovery records followed by 2012's collected records. -/
theorem selenium_discovery_prefixes_active_witness :
    (crawl_oscar_films_selenium c7env none).discoverCalls = 1
    ∧ (crawl_oscar_films_selenium c7env none).fetchedYears = [2012]
    ∧ 2010 ∉ (crawl_oscar_films_selenium c7env none).fetchedYears
    ∧ (crawl_oscar_films_selenium c7env none).result =
        Except.ok ([filmA] ++
          ((([2010, 2012] : List Int).filter (fun y => y != 2010)).filterMap
            (fun y => okFilms (c7env.fetchYear y))).flatten) :=
  ⟨(selenium_discovery_prefixes_active c7env [2010, 2012] 2010 [filmA] rfl).1,
   ((selenium_discovery_prefixes_active c7env [2010, 2012] 2010 [filmA] rfl).2.1).trans
     (by decide),
   (selenium_discovery_prefixes_active c7env [2010, 2012] 2010 [filmA] rfl).2.2.1,
   (selenium_discovery_prefixes_active c7env [2010, 2012] 2010 [filmA] rfl).2.2.2.2
     (fun y hy => ⟨[filmB], rfl⟩)⟩

/-- C5: every state a job passes through — the pending state created at
submission, the running state, and the terminal state written by
`_run_crawl_job` — satisfies the record/error presence invariant:
`films` present iff `completed`, `error` present iff `failed`, a
completed job's `total_films` equals the length of its `films`, and a
pending/running job has `total_films = 0`. -/
theorem job_lifecycle_invariant (id : String) (t0 t1 t2 : Nat)
    (crawl : Except PyExc (List OscarFilm)) (file : String) (j : CrawlJobResult)
    (hj : j ∈ mkJob id t0 :: _run_crawl_job (mkJob id t0) crawl t1 t2 file) :
    jobInvariant j := by
  cases crawl with
  | ok films =>
      simp only [_run_crawl_job, List.mem_cons, List.not_mem_nil, or_false] at hj
      rcases hj with rfl | rfl | rfl
      · simp [jobInvariant, mkJob]
      · simp [jobInvariant, runningUpdate, mkJob]
      · simp [jobInvariant, completedUpdate, mkJob]
  | error exc =>
      simp only [_run_crawl_job, List.mem_cons, List.not_mem_nil, or_false] at hj
      rcases hj with rfl | rfl | rfl
      · simp [jobInvariant, mkJob]
      · simp [jobInvariant, runningUpdate, mkJob]
      · simp [jobInvariant, failedUpdate, mkJob]

/-- Witness for C5: the invariant at the initial pending state and at the
completed state of a concrete successful job. -/
theorem job_lifecycle_invariant_witness :
    jobInvariant (mkJob "job1" 0)
    ∧ jobInvariant (completedUpdate (mkJob "job1" 0) 2 [filmA] "data/oscar_job1.json") :=
  ⟨job_lifecycle_invariant "job1" 0 1 2 (Except.ok [filmA]) "data/oscar_job1.json"
      (mkJob "job1" 0) (List.mem_cons_self _ _),
   job_lifecycle_invariant "job1" 0 1 2 (Except.ok [filmA]) "data/oscar_job1.json"
      (completedUpdate (mkJob "job1" 0) 2 [filmA] "data/oscar_job1.json")
      (by simp [_run_crawl_job])⟩

/-- C6: submission returns the freshly created job immediately in
`pending` with no error, the submission-time return value is
independent of how the crawl will turn out (no crawl exception reaches
the submitter), and a failing background run records the failure only
in the job snapshot: final status `failed` with `error` taken from the
exception's structured representation `repr(exc)`, not its message
string. -/
theorem submit_never_raises_failure_recorded (id : String) (t0 : Nat)
    (crawl crawl2 : Except PyExc (List OscarFilm)) :
    (trigger_oscar_crawl id t0 crawl).1.status = JobStatusEnum.pending
    ∧ (trigger_oscar_crawl id t0 crawl).1.error = none
    ∧ (trigger_oscar_crawl id t0 crawl).1 = (trigger_oscar_crawl id t0 crawl2).1
    ∧ (∀ (exc : PyExc) (t1 t2 : Nat) (file : String),
        ((trigger_oscar_crawl id t0 (Except.error exc)).2 t1 t2 file).getLast? =
          some (failedUpdate (mkJob id t0) t2 exc))
    ∧ ∀ (exc : PyExc) (t2 : Nat),
        (failedUpdate (mkJob id t0) t2 exc).status = JobStatusEnum.failed
        ∧ (failedUpdate (mkJob id t0) t2 exc).error = some exc.reprStr :=
  ⟨rfl, rfl, rfl, fun _ _ _ _ => rfl, fun _ _ => ⟨rfl, rfl⟩⟩
